import Mathlib

/-!
Shallow embedding of the AVS auth server's `authentication.js` module.

The module keeps five global in-memory collections (plain JavaScript
objects used as string-keyed maps, plus one array used as a queue):

  - `pendingStateToRegCode`   : stateCode => regCode
  - `pendingRegCodeToDevice`  : regCode => pending device info
  - `pendingDeviceToRegCode`  : product:dsn => regCode
  - `deviceInformation`       : product:dsn => permanent device record
  - `pendingRegistrationQueue`: array of regCodes in creation order

JavaScript objects are embedded as association lists over `String` keys;
`undefined` results of property reads are embedded as `Option`; times are
milliseconds-since-epoch embedded as `Int`; the two outbound HTTPS calls to
the identity provider's token endpoint are embedded by passing the
provider's response as an explicit argument.
-/

set_option autoImplicit false

namespace AVSAuth

/-- Time in milliseconds, as produced by `new Date().getTime()`. -/
abbrev Millis := Int

/-- `MAX_REG_SECONDS` from the source: seconds a registration code is valid. -/
def MAX_REG_SECONDS : Int := 900

/-- `MIN_POLL_RATE` from the source: minimum ms between token polls. -/
def MIN_POLL_RATE : Int := 1000

/-- `MAX_PENDING_REG` from the source: intended cap on pending registrations. -/
def MAX_PENDING_REG : Nat := 50000

/-- `PRODUCT_MAX_LENGTH` from the source. -/
def PRODUCT_MAX_LENGTH : Nat := 384

/-- `PRODUCT_MIN_LENGTH` from the source. -/
def PRODUCT_MIN_LENGTH : Nat := 1

/-- `DSN_MIN_LENGTH` from the source. -/
def DSN_MIN_LENGTH : Nat := 1

/-- `STATE_NUM_BYTES` from the source: random bytes in a state token
(hex-encoded, so issued state tokens have `2 * STATE_NUM_BYTES` characters). -/
def STATE_NUM_BYTES : Nat := 32

/-- `REG_NUM_BYTES` from the source: random bytes in a registration code and
in a device secret (hex-encoded, so both have `2 * REG_NUM_BYTES` characters). -/
def REG_NUM_BYTES : Nat := 12

/-- Property read on a JavaScript object used as a map: `m[k]`,
`none` standing for `undefined`. -/
def jsGet {α : Type} (m : List (String × α)) (k : String) : Option α :=
  match m with
  | [] => none
  | (k1, v) :: rest => if k1 = k then some v else jsGet rest k

/-- Property write on a JavaScript object used as a map: `m[k] = v`. -/
def jsSet {α : Type} (m : List (String × α)) (k : String) (v : α) :
    List (String × α) :=
  match m with
  | [] => [(k, v)]
  | (k1, v1) :: rest => if k1 = k then (k, v) :: rest else (k1, v1) :: jsSet rest k v

/-- Property deletion on a JavaScript object used as a map: `delete m[k]`. -/
def jsDelete {α : Type} (m : List (String × α)) (k : String) :
    List (String × α) :=
  match m with
  | [] => []
  | (k1, v1) :: rest => if k1 = k then jsDelete rest k else (k1, v1) :: jsDelete rest k

/-- JavaScript truthiness of a possibly-undefined string value:
`undefined` and the empty string are falsy, every other string is truthy. -/
def truthyStr : Option String → Bool
  | none => false
  | some s => decide (s ≠ "")

/-- Indexing a JavaScript object with a possibly-undefined key: when the key
expression is `undefined`, JavaScript coerces it to the string "undefined". -/
def jsKey : Option String → String
  | none => "undefined"
  | some s => s

/-- Value type of `pendingRegCodeToDevice`: the object built by
`addPendingRegistration`. The source never writes a `lastCall` field at
creation time, so reading `regInfo.lastCall` yields `undefined` until the
first poll assigns it; that absent-until-assigned field is `Option Millis`. -/
structure PendingDevice where
  product : String
  dsn : String
  deviceSecret : String
  expires : Millis
  lastCall : Option Millis
deriving Repr, DecidableEq

/-- The `tokens` sub-object of a `deviceInformation` record. -/
structure DeviceTokens where
  access : String
  refresh : String
  expires : Int
deriving Repr, DecidableEq

/-- Value type of `deviceInformation`. -/
structure DeviceRecord where
  deviceSecret : String
  tokens : DeviceTokens
deriving Repr, DecidableEq

/-- The five module-level mutable collections of `authentication.js`. -/
structure AuthState where
  pendingStateToRegCode : List (String × String)
  pendingRegCodeToDevice : List (String × PendingDevice)
  pendingDeviceToRegCode : List (String × String)
  deviceInformation : List (String × DeviceRecord)
  pendingRegistrationQueue : List String
deriving Repr, DecidableEq

/-- The `config.products` table: product id => allowed serial numbers. -/
structure Config where
  products : List (String × List String)
deriving Repr

/-- Error names raised by the module (the `name` field of the error objects
built by the `error(name, msg, status)` helper). -/
inductive ErrName where
  | Throttle
  | PendingRegistration
  | BadRequest
  | InvalidRegistrationCode
  | ExpiredRegistrationCode
  | InvalidState
  | TokenRetrievalFailure
  | InvalidProductInformation
  | ExpiredDeviceSecret
  | InvalidDeviceSecret
  | InternalError
deriving Repr, DecidableEq

/-- The parsed JSON body of a 200 response from the identity provider's
token endpoint. -/
structure TokenResponse where
  access_token : String
  refresh_token : String
  expires_in : Int
deriving Repr, DecidableEq

/-- The identity provider's response to an outbound token-endpoint POST:
its HTTP status code, and the parsed body when one was buffered
(`none` embeds a `null` `resultBuffer`). -/
structure LwaResponse where
  statusCode : Int
  body : Option TokenResponse
deriving Repr, DecidableEq

/-- `isValidDevice(product, dsn)` from the source. `config.products[product]`
is an array (always truthy when present), and `indexOf(dsn) >= 0` is
membership. -/
def isValidDevice (cfg : Config) (product dsn : String) : Bool :=
  decide (PRODUCT_MIN_LENGTH ≤ product.length) &&
  decide (product.length ≤ PRODUCT_MAX_LENGTH) &&
  decide (DSN_MIN_LENGTH ≤ dsn.length) &&
  match jsGet cfg.products product with
  | some serials => serials.contains dsn
  | none => false

/-- `removePendingDevice(regCode)` from the source: when the code is present
in `pendingRegCodeToDevice`, deletes it there and deletes the corresponding
`product + ':' + dsn` key from `pendingDeviceToRegCode`. The source does not
touch `pendingRegistrationQueue` here (stale queue entries are dropped lazily
by `checkExpire`), and does nothing when the code is absent. -/
def removePendingDevice (st : AuthState) (regCode : String) : AuthState :=
  match jsGet st.pendingRegCodeToDevice regCode with
  | some dev =>
      { st with
        pendingRegCodeToDevice := jsDelete st.pendingRegCodeToDevice regCode,
        pendingDeviceToRegCode :=
          jsDelete st.pendingDeviceToRegCode (dev.product ++ ":" ++ dev.dsn) }
  | none => st

/-- The `while` loop of `checkExpire`, with the not-yet-processed part of
`pendingRegistrationQueue` threaded as the recursion argument: the head is
dropped when its code is absent from `pendingRegCodeToDevice`, removed (via
`removePendingDevice`) and dropped when `curtime > expires`, and the loop
breaks, keeping the remaining queue, at the first present unexpired head. -/
def checkExpireLoop (curtime : Millis) : List String → AuthState → AuthState
  | [], st => { st with pendingRegistrationQueue := [] }
  | regCode :: rest, st =>
      match jsGet st.pendingRegCodeToDevice regCode with
      | some dev =>
          if curtime > dev.expires then
            checkExpireLoop curtime rest (removePendingDevice st regCode)
          else
            { st with pendingRegistrationQueue := regCode :: rest }
      | none => checkExpireLoop curtime rest st

/-- `checkExpire()` from the source, with the current time as an argument. -/
def checkExpire (st : AuthState) (curtime : Millis) : AuthState :=
  checkExpireLoop curtime st.pendingRegistrationQueue st

/-- Embeds the guard `pendingRegCodeToDevice.length >= MAX_PENDING_REG` of
`addPendingRegistration`. In the source `pendingRegCodeToDevice` is a plain
object literal, so its `length` property is `undefined`, and in JavaScript
`undefined >= n` evaluates to `false` for every number `n` (the comparison
coerces `undefined` to `NaN`). The guard is therefore constantly false,
whatever the map holds. -/
def pendingLengthAtCap (_codeMap : List (String × PendingDevice)) : Bool :=
  false

/-- `addPendingRegistration(regCode, deviceSecret, product, dsn)` from the
source, with the current time as an argument. Returns the error (or `none`)
together with the updated state. The `setInterval` arming of the expiry
timer has no effect on the collections and is not represented. -/
def addPendingRegistration (st : AuthState)
    (regCode deviceSecret product dsn : String) (curtime : Millis) :
    Option ErrName × AuthState :=
  if pendingLengthAtCap st.pendingRegCodeToDevice then
    (some ErrName.Throttle, st)
  else if jsGet st.pendingDeviceToRegCode (product ++ ":" ++ dsn) = none then
    let expires := curtime + 1000 * MAX_REG_SECONDS
    (none,
      { st with
        pendingRegCodeToDevice :=
          jsSet st.pendingRegCodeToDevice regCode
            { product := product, dsn := dsn, deviceSecret := deviceSecret,
              expires := expires, lastCall := none },
        pendingDeviceToRegCode :=
          jsSet st.pendingDeviceToRegCode (product ++ ":" ++ dsn) regCode,
        pendingRegistrationQueue := st.pendingRegistrationQueue ++ [regCode] })
  else
    (some ErrName.PendingRegistration, st)

/-- Result of `auth.register`: either the 302 redirect (carrying the freshly
generated state token that was bound to the registration code) or an error. -/
inductive RegisterResult where
  | redirect (state : String)
  | err (e : ErrName)
deriving Repr, DecidableEq

/-- `auth.register(regCode, ...)` from the source, with the current time and
the freshly generated random state token as arguments. On the success path
`redirectToDeviceAuthenticate` records `pendingStateToRegCode[state] = regCode`
and redirects; on expiry the pending entry is removed as a side effect. -/
def register (st : AuthState) (regCode : String) (curtime : Millis)
    (state : String) : RegisterResult × AuthState :=
  if regCode.length ≠ REG_NUM_BYTES * 2 ∨ jsGet st.pendingRegCodeToDevice regCode = none then
    (RegisterResult.err ErrName.InvalidRegistrationCode, st)
  else
    match jsGet st.pendingRegCodeToDevice regCode with
    | some prodInfo =>
        if prodInfo.expires > curtime then
          (RegisterResult.redirect state,
            { st with pendingStateToRegCode := jsSet st.pendingStateToRegCode state regCode })
        else
          (RegisterResult.err ErrName.ExpiredRegistrationCode,
            removePendingDevice st regCode)
    | none => (RegisterResult.err ErrName.InvalidRegistrationCode, st)

/-- Result of `auth.retrieveTokens`: the callback's success message or error. -/
inductive RetrieveResult where
  | ok (message : String)
  | err (e : ErrName)
deriving Repr, DecidableEq

/-- `auth.retrieveTokens(authcode, stateCode, ...)` from the source, with the
current time and the identity provider's response to the authorization-code
exchange as arguments.

The source's branch condition is
`stateCode.length != STATE_NUM_BYTES*2 || pendingStateToRegCode[stateCode]`:
the main branch is entered when the state token has the WRONG length or when
it is bound (truthily) in the map. Inside, the binding is read and deleted
before anything else; when the token was unbound, `regCode` is `undefined`
and the later map reads use the key "undefined". -/
def retrieveTokens (st : AuthState) (authcode stateCode : String)
    (curtime : Millis) (resp : LwaResponse) : RetrieveResult × AuthState :=
  if stateCode.length ≠ STATE_NUM_BYTES * 2 ∨
      truthyStr (jsGet st.pendingStateToRegCode stateCode) = true then
    let regCode := jsGet st.pendingStateToRegCode stateCode
    let st1 := { st with
      pendingStateToRegCode := jsDelete st.pendingStateToRegCode stateCode }
    match jsGet st1.pendingRegCodeToDevice (jsKey regCode) with
    | some dev =>
        if dev.expires > curtime then
          if resp.statusCode = 200 then
            match resp.body with
            | some result =>
                let st2 := { st1 with
                  deviceInformation :=
                    jsSet st1.deviceInformation (dev.product ++ ":" ++ dev.dsn)
                      { deviceSecret := dev.deviceSecret,
                        tokens :=
                          { access := result.access_token,
                            refresh := result.refresh_token,
                            expires := result.expires_in } } }
                (RetrieveResult.ok "device tokens ready",
                  removePendingDevice st2 (jsKey regCode))
            | none => (RetrieveResult.err ErrName.TokenRetrievalFailure, st1)
          else (RetrieveResult.err ErrName.TokenRetrievalFailure, st1)
        else
          (RetrieveResult.err ErrName.ExpiredRegistrationCode,
            removePendingDevice st1 (jsKey regCode))
    | none =>
        (RetrieveResult.err ErrName.ExpiredRegistrationCode,
          removePendingDevice st1 (jsKey regCode))
  else
    (RetrieveResult.err ErrName.InvalidState, st)

/-- Result of `auth.getAccessToken`: a poll status, a token reply, an error,
or the TypeError the source would throw when `pendingDeviceToRegCode` holds a
regCode that is absent from `pendingRegCodeToDevice` (reading `.expires` of
`undefined`). -/
inductive PollResult where
  | pollStatus (status : String)
  | tokens (access : String) (expires : Int)
  | err (e : ErrName)
  | jsTypeError
deriving Repr, DecidableEq

/-- `auth.getAccessToken(product, dsn, deviceSecret, ...)` from the source,
with the current time and the identity provider's response to the
refresh-token exchange as arguments.

In the pending branch the source computes `interval` as follows:
`regInfo.lastCall === 0` is false when `lastCall` was never assigned
(`undefined === 0` is false), so on the first poll
`interval = curtime - undefined = NaN`; `NaN < MIN_POLL_RATE` is false, so
`backoffStatus` is "waiting". `interval` is embedded as `Option Int` with
`none` for `NaN`. Note the pending branch never compares the presented
`deviceSecret` against `regInfo.deviceSecret`. -/
def getAccessToken (cfg : Config) (st : AuthState)
    (product dsn deviceSecret : String) (curtime : Millis)
    (resp : LwaResponse) : PollResult × AuthState :=
  if isValidDevice cfg product dsn = false then
    (PollResult.err ErrName.BadRequest, st)
  else
    let productDsn := product ++ ":" ++ dsn
    match jsGet st.pendingDeviceToRegCode productDsn with
    | some regCode =>
        match jsGet st.pendingRegCodeToDevice regCode with
        | some regInfo =>
            if regInfo.expires > curtime then
              if regInfo.product = product ∧ regInfo.dsn = dsn then
                let interval : Option Int :=
                  if regInfo.lastCall = some 0 then
                    some (MIN_POLL_RATE + 1)
                  else
                    match regInfo.lastCall with
                    | some last => some (curtime - last)
                    | none => none
                let st1 := { st with
                  pendingRegCodeToDevice :=
                    jsSet st.pendingRegCodeToDevice regCode
                      { regInfo with lastCall := some curtime } }
                let backoffStatus :=
                  match interval with
                  | some i => if i < MIN_POLL_RATE then "slowdown" else "waiting"
                  | none => "waiting"
                (PollResult.pollStatus backoffStatus, st1)
              else
                (PollResult.err ErrName.InvalidProductInformation, st)
            else
              (PollResult.err ErrName.ExpiredDeviceSecret, st)
        | none => (PollResult.jsTypeError, st)
    | none =>
        match jsGet st.deviceInformation productDsn with
        | some devInfo =>
            if deviceSecret.length = REG_NUM_BYTES * 2 ∧
                devInfo.deviceSecret = deviceSecret then
              if resp.statusCode = 200 then
                match resp.body with
                | some result =>
                    let st1 := { st with
                      deviceInformation :=
                        jsSet st.deviceInformation productDsn
                          { devInfo with
                            tokens :=
                              { devInfo.tokens with
                                access := result.access_token,
                                expires := result.expires_in } } }
                    (PollResult.tokens result.access_token result.expires_in, st1)
                | none => (PollResult.err ErrName.TokenRetrievalFailure, st)
              else (PollResult.err ErrName.TokenRetrievalFailure, st)
            else
              (PollResult.err ErrName.InvalidDeviceSecret, st)
        | none => (PollResult.err ErrName.InvalidDeviceSecret, st)

/-! ### Map lemmas -/

theorem jsGet_jsDelete_self {α : Type} (m : List (String × α)) (k : String) :
    jsGet (jsDelete m k) k = none := by
  induction m with
  | nil => rfl
  | cons p rest ih =>
    obtain ⟨k1, v1⟩ := p
    by_cases h : k1 = k
    · simpa [jsDelete, h] using ih
    · simpa [jsDelete, jsGet, h] using ih

theorem jsGet_jsDelete_ne {α : Type} (m : List (String × α)) (k k1 : String)
    (h : k1 ≠ k) : jsGet (jsDelete m k) k1 = jsGet m k1 := by
  induction m with
  | nil => rfl
  | cons p rest ih =>
    obtain ⟨k2, v2⟩ := p
    by_cases h2 : k2 = k
    · have h3 : k2 ≠ k1 := by rw [h2]; exact fun he => h he.symm
      simp [jsDelete, jsGet, h2, h3, Ne.symm h, ih]
    · simp [jsDelete, jsGet, h2, ih]

theorem jsGet_jsDelete_of_none {α : Type} (m : List (String × α)) (k k1 : String)
    (h : jsGet m k1 = none) : jsGet (jsDelete m k) k1 = none := by
  by_cases hk : k1 = k
  · rw [hk]; exact jsGet_jsDelete_self m k
  · rw [jsGet_jsDelete_ne m k k1 hk]; exact h

theorem jsGet_jsSet_self {α : Type} (m : List (String × α)) (k : String) (v : α) :
    jsGet (jsSet m k v) k = some v := by
  induction m with
  | nil => simp [jsSet, jsGet]
  | cons p rest ih =>
    obtain ⟨k1, v1⟩ := p
    by_cases h : k1 = k
    · simp [jsSet, jsGet, h]
    · simp [jsSet, jsGet, h, ih]

/-! ### Behavior of removePendingDevice (shared lemmas) -/

theorem removePendingDevice_of_get {st : AuthState} {c : String} {dev : PendingDevice}
    (h : jsGet st.pendingRegCodeToDevice c = some dev) :
    removePendingDevice st c =
      { st with
        pendingRegCodeToDevice := jsDelete st.pendingRegCodeToDevice c,
        pendingDeviceToRegCode :=
          jsDelete st.pendingDeviceToRegCode (dev.product ++ ":" ++ dev.dsn) } := by
  unfold removePendingDevice
  rw [h]

theorem removePendingDevice_of_none {st : AuthState} {c : String}
    (h : jsGet st.pendingRegCodeToDevice c = none) :
    removePendingDevice st c = st := by
  unfold removePendingDevice
  rw [h]

theorem removePendingDevice_stateMap (st : AuthState) (c : String) :
    (removePendingDevice st c).pendingStateToRegCode = st.pendingStateToRegCode := by
  unfold removePendingDevice
  cases jsGet st.pendingRegCodeToDevice c <;> rfl

theorem removePendingDevice_deviceInformation (st : AuthState) (c : String) :
    (removePendingDevice st c).deviceInformation = st.deviceInformation := by
  unfold removePendingDevice
  cases jsGet st.pendingRegCodeToDevice c <;> rfl

theorem removePendingDevice_queue (st : AuthState) (c : String) :
    (removePendingDevice st c).pendingRegistrationQueue = st.pendingRegistrationQueue := by
  unfold removePendingDevice
  cases jsGet st.pendingRegCodeToDevice c <;> rfl

/-! ### Shared concrete data for witnesses and counterexamples -/

/-- A products table with one product and one allowed serial number. -/
def sampleCfg : Config := { products := [("speaker", ["123"])] }

/-- A 24-hex-char device secret as issued (2 * REG_NUM_BYTES characters). -/
def boundSecret : String := "aaaaaaaaaaaaaaaaaaaaaaaa"

/-- A different 24-hex-char device secret. -/
def wrongSecret : String := "bbbbbbbbbbbbbbbbbbbbbbbb"

/-- A 24-hex-char registration code. -/
def regC : String := "cccccccccccccccccccccccc"

/-- A second 24-hex-char registration code. -/
def regD : String := "dddddddddddddddddddddddd"

/-- A 64-char state token, the length issued by the browser-redirect step. -/
def stateTok : String := String.mk (List.replicate 64 's')

/-- A pending registration for (speaker, 123) bound to boundSecret,
freshly created (no lastCall field yet), expiring at t = 1000000. -/
def pendingDev1 : PendingDevice :=
  { product := "speaker", dsn := "123", deviceSecret := boundSecret,
    expires := 1000000, lastCall := none }

/-- The state in which pendingDev1 is the only pending registration. -/
def pendingState1 : AuthState :=
  { pendingStateToRegCode := [],
    pendingRegCodeToDevice := [(regC, pendingDev1)],
    pendingDeviceToRegCode := [("speaker:123", regC)],
    deviceInformation := [],
    pendingRegistrationQueue := [regC] }

/-- The state with no registrations at all. -/
def emptyState : AuthState :=
  { pendingStateToRegCode := [], pendingRegCodeToDevice := [],
    pendingDeviceToRegCode := [], deviceInformation := [],
    pendingRegistrationQueue := [] }

/-- A state in which (speaker, 123) has been promoted: a DeviceRecord bound
to boundSecret exists and nothing is pending. -/
def promotedState1 : AuthState :=
  { emptyState with
    deviceInformation :=
      [("speaker:123",
        { deviceSecret := boundSecret,
          tokens := { access := "A", refresh := "R", expires := 3600 } })] }

/-- pendingState1 with the browser-redirect state token bound to regC. -/
def stateWithTok : AuthState :=
  { pendingState1 with pendingStateToRegCode := [(stateTok, regC)] }

/-- An identity-provider response that never arrives (used on paths that do
not reach the outbound call). -/
def noResp : LwaResponse := { statusCode := 0, body := none }

/-- A 200 identity-provider response carrying a token JSON body. -/
def okResp : LwaResponse :=
  { statusCode := 200,
    body := some { access_token := "A", refresh_token := "R", expires_in := 3600 } }

/-- A pending registration whose expiry time is exactly 100. -/
def devExp : PendingDevice :=
  { product := "speaker", dsn := "123", deviceSecret := boundSecret,
    expires := 100, lastCall := none }

/-- The state in which devExp is the only pending registration. -/
def expiryState1 : AuthState :=
  { emptyState with
    pendingRegCodeToDevice := [(regC, devExp)],
    pendingDeviceToRegCode := [("speaker:123", regC)],
    pendingRegistrationQueue := [regC] }

/-- A pending registration created at t = 0 with the 900 s TTL of the source:
expires = 0 + 1000 * MAX_REG_SECONDS = 900000. -/
def ttlDev : PendingDevice :=
  { product := "speaker", dsn := "123", deviceSecret := boundSecret,
    expires := 900000, lastCall := none }

/-- The state in which ttlDev is the only pending registration. -/
def ttlState : AuthState :=
  { emptyState with
    pendingRegCodeToDevice := [(regC, ttlDev)],
    pendingDeviceToRegCode := [("speaker:123", regC)],
    pendingRegistrationQueue := [regC] }

/-- pendingDev1 after a poll at time t. -/
def devPolled (t : Millis) : PendingDevice :=
  { pendingDev1 with lastCall := some t }

/-- pendingState1 after a poll at time t. -/
def statePolled (t : Millis) : AuthState :=
  { pendingState1 with pendingRegCodeToDevice := [(regC, devPolled t)] }

/-! ### Claim theorems -/

/-- C1: refuted by the code. While a PendingRegistration exists for
(speaker, 123) bound to boundSecret, a poll presenting the different secret
wrongSecret still succeeds with poll_status "waiting": the pending branch of
auth.getAccessToken never compares the presented deviceSecret with the bound
one. After promotion the same mismatched secret does yield
InvalidDeviceSecret, as the claim says. -/
theorem c1_pending_poll_ignores_secret :
    wrongSecret ≠ pendingDev1.deviceSecret ∧
    (getAccessToken sampleCfg pendingState1 "speaker" "123" wrongSecret
        500000 noResp).1 = PollResult.pollStatus "waiting" ∧
    wrongSecret ≠ boundSecret ∧
    (getAccessToken sampleCfg promotedState1 "speaker" "123" wrongSecret
        500000 noResp).1 = PollResult.err ErrName.InvalidDeviceSecret := by
  refine ⟨by decide, by decide, by decide, by decide⟩

/-- C2: refuted by the code. addPendingRegistration can never reject with
Throttle, whatever the store holds: its capacity guard reads the length
property of a plain object, which is undefined, and undefined >= 50000 is
false in JavaScript, so even a store at or above MAX_PENDING_REG entries
accepts a fresh (product, dsn) instead of rejecting. -/
theorem c2_throttle_unreachable (st : AuthState)
    (regCode deviceSecret product dsn : String) (curtime : Millis) :
    (addPendingRegistration st regCode deviceSecret product dsn curtime).1 ≠
      some ErrName.Throttle := by
  unfold addPendingRegistration pendingLengthAtCap
  split
  · simp_all
  · split <;> simp

/-- C3: a second create for a (productId, serialNumber) pair that already has
a PendingRegistration fails with the AlreadyPending error (named
PendingRegistration in the source) and returns the state completely
unchanged: no structure is touched, so the existing registration is never
overwritten and at most one pending registration per pair can be inserted. -/
theorem c3_duplicate_create_rejected (st : AuthState)
    (regCode deviceSecret product dsn : String) (curtime : Millis)
    (h : (jsGet st.pendingDeviceToRegCode (product ++ ":" ++ dsn)).isSome) :
    addPendingRegistration st regCode deviceSecret product dsn curtime =
      (some ErrName.PendingRegistration, st) := by
  rcases hk : jsGet st.pendingDeviceToRegCode (product ++ ":" ++ dsn) with _ | rc
  · rw [hk] at h; simp at h
  · simp [addPendingRegistration, pendingLengthAtCap, hk]

/-- Witness for C3 at a concrete state that already holds a pending
registration for (speaker, 123). -/
theorem c3_witness :
    addPendingRegistration pendingState1 regD wrongSecret "speaker" "123" 0 =
      (some ErrName.PendingRegistration, pendingState1) :=
  c3_duplicate_create_rejected pendingState1 regD wrongSecret "speaker" "123" 0
    (by decide)

/-- C5: refuted by the code. The state token "abc" was never issued and is
absent from the state-to-code mapping, yet auth.retrieveTokens returns
ExpiredRegistrationCode instead of InvalidState: the branch condition
stateCode.length != STATE_NUM_BYTES*2 || pendingStateToRegCode[stateCode]
sends every wrong-length token into the main branch. (The call still
performs no promotion: the state is returned unchanged.) -/
theorem c5_wrong_shape_state_not_invalid :
    jsGet emptyState.pendingStateToRegCode "abc" = none ∧
    (retrieveTokens emptyState "authcode123" "abc" 0 noResp).1 =
      RetrieveResult.err ErrName.ExpiredRegistrationCode ∧
    (retrieveTokens emptyState "authcode123" "abc" 0 noResp).1 ≠
      RetrieveResult.err ErrName.InvalidState ∧
    (retrieveTokens emptyState "authcode123" "abc" 0 noResp).2 = emptyState := by
  refine ⟨rfl, by decide, by decide, by decide⟩

/-- C9 counterexample: removing the only pending registration deletes it from
the code-to-device map and from the device-to-code index, but its entry is
still in the expiry queue afterwards, so remove does not delete from all
three structures as the claim states. -/
theorem c9_counterexample :
    (removePendingDevice pendingState1 regC).pendingRegCodeToDevice = [] ∧
    (removePendingDevice pendingState1 regC).pendingDeviceToRegCode = [] ∧
    (removePendingDevice pendingState1 regC).pendingRegistrationQueue = [regC] := by
  refine ⟨by decide, by decide, by decide⟩

/-- C9 amended: removePendingDevice deletes the code's entry from the
code-to-device map and the device-to-code index but leaves the expiry queue
(and every other structure) untouched — stale queue entries are dropped
lazily by the sweep — and it is a no-op on every structure when the code is
absent from the code-to-device map. -/
theorem c9_remove_semantics (st : AuthState) (c : String) :
    (jsGet st.pendingRegCodeToDevice c = none → removePendingDevice st c = st) ∧
    (∀ dev, jsGet st.pendingRegCodeToDevice c = some dev →
      removePendingDevice st c =
        { st with
          pendingRegCodeToDevice := jsDelete st.pendingRegCodeToDevice c,
          pendingDeviceToRegCode :=
            jsDelete st.pendingDeviceToRegCode (dev.product ++ ":" ++ dev.dsn) }) := by
  exact ⟨fun h => removePendingDevice_of_none h,
    fun dev h => removePendingDevice_of_get h⟩

/-- Witness for C9: the amended semantics applied to a concrete present code
and to a concrete absent code. -/
theorem c9_witness :
    removePendingDevice pendingState1 regC =
      { pendingState1 with
        pendingRegCodeToDevice := jsDelete pendingState1.pendingRegCodeToDevice regC,
        pendingDeviceToRegCode :=
          jsDelete pendingState1.pendingDeviceToRegCode
            (pendingDev1.product ++ ":" ++ pendingDev1.dsn) } ∧
    removePendingDevice emptyState regC = emptyState :=
  ⟨(c9_remove_semantics pendingState1 regC).2 pendingDev1 (by decide),
    (c9_remove_semantics emptyState regC).1 (by decide)⟩

/-- The parsed token body carried by okResp. -/
def okTr : TokenResponse :=
  { access_token := "A", refresh_token := "R", expires_in := 3600 }

/-- Whatever happens after the main branch of auth.retrieveTokens is entered,
the resulting state's state-to-code mapping is the input one with the
presented stateCode deleted: the deletion precedes every other step. -/
theorem retrieveTokens_stateMap_of_entered (st : AuthState)
    (authcode stateCode : String) (curtime : Millis) (resp : LwaResponse)
    (hcond : stateCode.length ≠ STATE_NUM_BYTES * 2 ∨
      truthyStr (jsGet st.pendingStateToRegCode stateCode) = true) :
    (retrieveTokens st authcode stateCode curtime resp).2.pendingStateToRegCode =
      jsDelete st.pendingStateToRegCode stateCode := by
  unfold retrieveTokens
  rw [if_pos hcond]
  rcases hg : jsGet st.pendingRegCodeToDevice
      (jsKey (jsGet st.pendingStateToRegCode stateCode)) with _ | dev
  · simp [hg, removePendingDevice_stateMap]
  · simp only [hg]
    repeat' split
    all_goals simp [removePendingDevice_stateMap]

/-- A call whose state token has the issued length but is absent from the
state-to-code mapping returns InvalidState and leaves the state unchanged. -/
theorem retrieveTokens_unknown_state (st : AuthState)
    (authcode stateCode : String) (curtime : Millis) (resp : LwaResponse)
    (hlen : stateCode.length = STATE_NUM_BYTES * 2)
    (h : jsGet st.pendingStateToRegCode stateCode = none) :
    retrieveTokens st authcode stateCode curtime resp =
      (RetrieveResult.err ErrName.InvalidState, st) := by
  have hn : ¬ (stateCode.length ≠ STATE_NUM_BYTES * 2 ∨
      truthyStr (jsGet st.pendingStateToRegCode stateCode) = true) := by
    rintro (hA | hB)
    · exact hA hlen
    · rw [h] at hB; simp [truthyStr] at hB
  unfold retrieveTokens
  rw [if_neg hn]

/-- C4: a state token as issued by the browser-redirect step (64 characters,
bound in the state-to-code mapping to a nonempty registration code) is
single-use: after auth.retrieveTokens runs once with it — whatever the
registration lookup, expiry check or token exchange produced — the mapping
entry is gone, and a second call with the same token returns InvalidState. -/
theorem c4_state_token_single_use (st : AuthState)
    (stateCode rc authcode authcode2 : String) (curtime curtime2 : Millis)
    (resp resp2 : LwaResponse)
    (hlen : stateCode.length = STATE_NUM_BYTES * 2)
    (hbind : jsGet st.pendingStateToRegCode stateCode = some rc)
    (hrc : rc ≠ "") :
    jsGet (retrieveTokens st authcode stateCode curtime resp).2.pendingStateToRegCode
        stateCode = none ∧
    (retrieveTokens (retrieveTokens st authcode stateCode curtime resp).2
        authcode2 stateCode curtime2 resp2).1 =
      RetrieveResult.err ErrName.InvalidState := by
  have hcond : stateCode.length ≠ STATE_NUM_BYTES * 2 ∨
      truthyStr (jsGet st.pendingStateToRegCode stateCode) = true :=
    Or.inr (by simp [truthyStr, hbind, hrc])
  have h1 := retrieveTokens_stateMap_of_entered st authcode stateCode curtime resp hcond
  have h2 : jsGet (retrieveTokens st authcode stateCode curtime
      resp).2.pendingStateToRegCode stateCode = none := by
    rw [h1]; exact jsGet_jsDelete_self _ _
  refine ⟨h2, ?_⟩
  rw [retrieveTokens_unknown_state _ authcode2 stateCode curtime2 resp2 hlen h2]

/-- Witness for C4 at a concrete issued binding, running the first call on
the 200 response and replaying the token. -/
theorem c4_witness :
    jsGet (retrieveTokens stateWithTok "authcode123" stateTok 500000
        okResp).2.pendingStateToRegCode stateTok = none ∧
    (retrieveTokens (retrieveTokens stateWithTok "authcode123" stateTok 500000
        okResp).2 "authcode123" stateTok 500000 okResp).1 =
      RetrieveResult.err ErrName.InvalidState :=
  c4_state_token_single_use stateWithTok stateTok regC "authcode123" "authcode123"
    500000 500000 okResp okResp (by decide) (by decide) (by decide)

/-- C6: a completeBrowserAuthentication call that reaches the
authorization-code exchange (state token bound to a registration code whose
PendingRegistration is unexpired) promotes atomically. On a 200 response
carrying a token body, a DeviceRecord keyed by product:dsn holding the
access token, the refresh token and the original device secret is written
and the registration is removed from both pending maps; on a failed exchange
(non-200 status or no buffered body) the result is TokenRetrievalFailure and
the pending maps and the DeviceRecord store are exactly as before. -/
theorem c6_promotion_atomic (st : AuthState) (stateCode rc authcode : String)
    (dev : PendingDevice) (curtime : Millis) (resp : LwaResponse)
    (tr : TokenResponse)
    (hbind : jsGet st.pendingStateToRegCode stateCode = some rc)
    (hrc : rc ≠ "")
    (hdev : jsGet st.pendingRegCodeToDevice rc = some dev)
    (hexp : dev.expires > curtime) :
    (resp = { statusCode := 200, body := some tr } →
      (retrieveTokens st authcode stateCode curtime resp).1 =
        RetrieveResult.ok "device tokens ready" ∧
      jsGet (retrieveTokens st authcode stateCode curtime resp).2.deviceInformation
          (dev.product ++ ":" ++ dev.dsn) =
        some { deviceSecret := dev.deviceSecret,
               tokens := { access := tr.access_token, refresh := tr.refresh_token,
                           expires := tr.expires_in } } ∧
      jsGet (retrieveTokens st authcode stateCode curtime
          resp).2.pendingRegCodeToDevice rc = none ∧
      jsGet (retrieveTokens st authcode stateCode curtime
          resp).2.pendingDeviceToRegCode (dev.product ++ ":" ++ dev.dsn) = none) ∧
    (resp.statusCode ≠ 200 ∨ resp.body = none →
      (retrieveTokens st authcode stateCode curtime resp).1 =
        RetrieveResult.err ErrName.TokenRetrievalFailure ∧
      (retrieveTokens st authcode stateCode curtime
          resp).2.pendingRegCodeToDevice = st.pendingRegCodeToDevice ∧
      (retrieveTokens st authcode stateCode curtime
          resp).2.pendingDeviceToRegCode = st.pendingDeviceToRegCode ∧
      (retrieveTokens st authcode stateCode curtime
          resp).2.deviceInformation = st.deviceInformation) := by
  have hcond : stateCode.length ≠ STATE_NUM_BYTES * 2 ∨
      truthyStr (jsGet st.pendingStateToRegCode stateCode) = true :=
    Or.inr (by simp [truthyStr, hbind, hrc])
  constructor
  · rintro rfl
    have hrun : retrieveTokens st authcode stateCode curtime
        { statusCode := 200, body := some tr } =
        (RetrieveResult.ok "device tokens ready",
          removePendingDevice
            { st with
              pendingStateToRegCode := jsDelete st.pendingStateToRegCode stateCode,
              deviceInformation :=
                jsSet st.deviceInformation (dev.product ++ ":" ++ dev.dsn)
                  { deviceSecret := dev.deviceSecret,
                    tokens := { access := tr.access_token,
                                refresh := tr.refresh_token,
                                expires := tr.expires_in } } } rc) := by
      unfold retrieveTokens
      rw [if_pos hcond]
      simp only [hbind, jsKey, hdev]
      rw [if_pos hexp]
      simp
    rw [hrun]
    have hget : jsGet ({ st with
        pendingStateToRegCode := jsDelete st.pendingStateToRegCode stateCode,
        deviceInformation :=
          jsSet st.deviceInformation (dev.product ++ ":" ++ dev.dsn)
            { deviceSecret := dev.deviceSecret,
              tokens := { access := tr.access_token,
                          refresh := tr.refresh_token,
                          expires := tr.expires_in } } } :
          AuthState).pendingRegCodeToDevice rc = some dev := hdev
    rw [removePendingDevice_of_get hget]
    refine ⟨rfl, ?_, ?_, ?_⟩
    · simpa using jsGet_jsSet_self st.deviceInformation
        (dev.product ++ ":" ++ dev.dsn)
        { deviceSecret := dev.deviceSecret,
          tokens := { access := tr.access_token, refresh := tr.refresh_token,
                      expires := tr.expires_in } }
    · simpa using jsGet_jsDelete_self st.pendingRegCodeToDevice rc
    · simpa using jsGet_jsDelete_self st.pendingDeviceToRegCode
        (dev.product ++ ":" ++ dev.dsn)
  · intro hfail
    have hrun : retrieveTokens st authcode stateCode curtime resp =
        (RetrieveResult.err ErrName.TokenRetrievalFailure,
          { st with
            pendingStateToRegCode := jsDelete st.pendingStateToRegCode stateCode }) := by
      unfold retrieveTokens
      rw [if_pos hcond]
      simp only [hbind, jsKey, hdev]
      rw [if_pos hexp]
      rcases hfail with hs | hb
      · rw [if_neg hs]
      · by_cases hs : resp.statusCode = 200
        · rw [if_pos hs, hb]
        · rw [if_neg hs]
    rw [hrun]
    exact ⟨rfl, rfl, rfl, rfl⟩

/-- Witness for C6: the concrete promotion scenario on the 200 response, and
the concrete failure scenario on a response that never arrived. -/
theorem c6_witness :
    ((retrieveTokens stateWithTok "authcode123" stateTok 500000 okResp).1 =
        RetrieveResult.ok "device tokens ready" ∧
      jsGet (retrieveTokens stateWithTok "authcode123" stateTok 500000
          okResp).2.deviceInformation (pendingDev1.product ++ ":" ++ pendingDev1.dsn) =
        some { deviceSecret := pendingDev1.deviceSecret,
               tokens := { access := okTr.access_token, refresh := okTr.refresh_token,
                           expires := okTr.expires_in } } ∧
      jsGet (retrieveTokens stateWithTok "authcode123" stateTok 500000
          okResp).2.pendingRegCodeToDevice regC = none ∧
      jsGet (retrieveTokens stateWithTok "authcode123" stateTok 500000
          okResp).2.pendingDeviceToRegCode
        (pendingDev1.product ++ ":" ++ pendingDev1.dsn) = none) ∧
    ((retrieveTokens stateWithTok "authcode123" stateTok 500000 noResp).1 =
        RetrieveResult.err ErrName.TokenRetrievalFailure ∧
      (retrieveTokens stateWithTok "authcode123" stateTok 500000
          noResp).2.pendingRegCodeToDevice = stateWithTok.pendingRegCodeToDevice ∧
      (retrieveTokens stateWithTok "authcode123" stateTok 500000
          noResp).2.pendingDeviceToRegCode = stateWithTok.pendingDeviceToRegCode ∧
      (retrieveTokens stateWithTok "authcode123" stateTok 500000
          noResp).2.deviceInformation = stateWithTok.deviceInformation) :=
  ⟨(c6_promotion_atomic stateWithTok stateTok regC "authcode123" pendingDev1
      500000 okResp okTr (by decide) (by decide) (by decide) (by decide)).1 rfl,
    (c6_promotion_atomic stateWithTok stateTok regC "authcode123" pendingDev1
      500000 noResp okTr (by decide) (by decide) (by decide) (by decide)).2
      (Or.inl (by decide))⟩

/-! ### Behavior of the expiry sweep (shared lemmas) -/

/-- The sweep loop never (re-)introduces entries: a code absent from the
code-to-device map stays absent. -/
theorem checkExpireLoop_get_none (curtime : Millis) (q : List String)
    (st : AuthState) (k : String)
    (h : jsGet st.pendingRegCodeToDevice k = none) :
    jsGet (checkExpireLoop curtime q st).pendingRegCodeToDevice k = none := by
  induction q generalizing st with
  | nil => simpa [checkExpireLoop] using h
  | cons c rest ih =>
    rcases hc : jsGet st.pendingRegCodeToDevice c with _ | dev
    · simp only [checkExpireLoop, hc]
      exact ih st h
    · simp only [checkExpireLoop, hc]
      by_cases hcmp : curtime > dev.expires
      · rw [if_pos hcmp]
        refine ih _ ?_
        rw [removePendingDevice_of_get hc]
        exact jsGet_jsDelete_of_none _ _ _ h
      · rw [if_neg hcmp]
        simpa using h

/-- The sweep loop never removes an entry whose expiry time has not strictly
passed. -/
theorem checkExpireLoop_preserve (curtime : Millis) (q : List String)
    (st : AuthState) (k : String) (d : PendingDevice)
    (h : jsGet st.pendingRegCodeToDevice k = some d) (hd : curtime ≤ d.expires) :
    jsGet (checkExpireLoop curtime q st).pendingRegCodeToDevice k = some d := by
  induction q generalizing st with
  | nil => simpa [checkExpireLoop] using h
  | cons c rest ih =>
    rcases hc : jsGet st.pendingRegCodeToDevice c with _ | dev
    · simp only [checkExpireLoop, hc]
      exact ih st h
    · simp only [checkExpireLoop, hc]
      by_cases hcmp : curtime > dev.expires
      · rw [if_pos hcmp]
        have hkc : k ≠ c := by
          rintro rfl
          rw [h] at hc
          injection hc with hdc
          rw [← hdc] at hcmp
          exact absurd hcmp (not_lt.mpr hd)
        refine ih _ ?_
        rw [removePendingDevice_of_get hc]
        rw [jsGet_jsDelete_ne _ _ _ hkc]
        exact h
      · rw [if_neg hcmp]
        simpa using h

/-- C7 counterexample: a pending registration whose expiry time has exactly
been reached (expiresAt = now, hence expiresAt <= now) sits at the head of
the queue, yet a sweep at that time removes nothing and leaves the whole
state unchanged: the source only expires entries with now STRICTLY greater
than expiresAt. -/
theorem c7_counterexample :
    devExp.expires ≤ (100 : Millis) ∧
    expiryState1.pendingRegistrationQueue = [regC] ∧
    jsGet expiryState1.pendingRegCodeToDevice regC = some devExp ∧
    checkExpire expiryState1 100 = expiryState1 ∧
    jsGet (checkExpire expiryState1 100).pendingRegCodeToDevice regC =
      some devExp := by
  refine ⟨by decide, by decide, by decide, by decide, by decide⟩

/-- C7 amended: for a sweep at time now, a queue head absent from the code
map is dropped and the sweep continues; a queue head present with
expiresAt < now (strictly, not the claimed expiresAt <= now) is removed from
the pending maps and the sweep continues; the sweep stops, changing nothing,
at a head that is present with expiresAt >= now; and no entry with
expiresAt >= now is ever removed by a sweep. In particular an entry with
TTL 900 s is unaffected at createdAt + 899 s and absent after a sweep at
createdAt + 901 s. -/
theorem c7_sweep_strict (st : AuthState) (curtime : Millis) (c : String)
    (rest : List String) (hq : st.pendingRegistrationQueue = c :: rest) :
    (jsGet st.pendingRegCodeToDevice c = none →
      checkExpire st curtime = checkExpireLoop curtime rest st) ∧
    (∀ dev, jsGet st.pendingRegCodeToDevice c = some dev →
      (curtime > dev.expires →
        checkExpire st curtime =
          checkExpireLoop curtime rest (removePendingDevice st c) ∧
        jsGet (checkExpire st curtime).pendingRegCodeToDevice c = none) ∧
      (curtime ≤ dev.expires → checkExpire st curtime = st)) ∧
    (∀ k d, jsGet st.pendingRegCodeToDevice k = some d → curtime ≤ d.expires →
      jsGet (checkExpire st curtime).pendingRegCodeToDevice k = some d) := by
  refine ⟨?_, ?_, ?_⟩
  · intro hc
    unfold checkExpire
    rw [hq]
    simp only [checkExpireLoop, hc]
  · intro dev hc
    constructor
    · intro hcmp
      have hrun : checkExpire st curtime =
          checkExpireLoop curtime rest (removePendingDevice st c) := by
        unfold checkExpire
        rw [hq]
        simp only [checkExpireLoop, hc]
        rw [if_pos hcmp]
      refine ⟨hrun, ?_⟩
      rw [hrun]
      refine checkExpireLoop_get_none curtime rest _ c ?_
      rw [removePendingDevice_of_get hc]
      exact jsGet_jsDelete_self _ _
    · intro hle
      unfold checkExpire
      rw [hq]
      simp only [checkExpireLoop, hc]
      rw [if_neg (not_lt.mpr hle)]
      rw [← hq]
  · intro k d hk hd
    exact checkExpireLoop_preserve curtime st.pendingRegistrationQueue st k d hk hd

/-- Witness for C7: the concrete 900 s-TTL registration created at t = 0 is
untouched by a sweep at 899000 ms and gone from the pending map after a
sweep at 901000 ms. -/
theorem c7_witness :
    checkExpire ttlState 899000 = ttlState ∧
    jsGet (checkExpire ttlState 901000).pendingRegCodeToDevice regC = none :=
  ⟨(((c7_sweep_strict ttlState 899000 regC [] (by decide)).2.1 ttlDev
      (by decide)).2 (by decide)),
    (((c7_sweep_strict ttlState 901000 regC [] (by decide)).2.1 ttlDev
      (by decide)).1 (by decide)).2⟩

/-! ### Behavior of the pending poll branch (shared lemma) -/

/-- The pending branch of auth.getAccessToken in one equation: when the
device is valid, has a pending registration that is unexpired and whose
recorded product/dsn match, the call records curtime as the new lastCall and
reports slowdown exactly when the previous lastCall was a nonzero number
less than MIN_POLL_RATE ms ago (a lastCall of 0 or an absent lastCall both
report waiting). -/
theorem getAccessToken_pending_run (cfg : Config) (st : AuthState)
    (product dsn deviceSecret rc : String) (regInfo : PendingDevice)
    (curtime : Millis) (resp : LwaResponse)
    (hvalid : isValidDevice cfg product dsn = true)
    (hidx : jsGet st.pendingDeviceToRegCode (product ++ ":" ++ dsn) = some rc)
    (hreg : jsGet st.pendingRegCodeToDevice rc = some regInfo)
    (hexp : regInfo.expires > curtime)
    (hp : regInfo.product = product) (hd : regInfo.dsn = dsn) :
    getAccessToken cfg st product dsn deviceSecret curtime resp =
      (PollResult.pollStatus
        (if regInfo.lastCall = some 0 then "waiting"
         else
           match regInfo.lastCall with
           | some last => if curtime - last < MIN_POLL_RATE then "slowdown" else "waiting"
           | none => "waiting"),
        { st with
          pendingRegCodeToDevice :=
            jsSet st.pendingRegCodeToDevice rc
              { regInfo with lastCall := some curtime } }) := by
  unfold getAccessToken
  rw [if_neg (by rw [hvalid]; simp)]
  simp only [hidx, hreg]
  rw [if_pos hexp, if_pos (And.intro hp hd)]
  by_cases h0 : regInfo.lastCall = some 0
  · rw [if_pos h0, if_pos h0]
    simp [MIN_POLL_RATE]
  · rw [if_neg h0, if_neg h0]
    rcases hl : regInfo.lastCall with _ | last
    · simp
    · simp

/-- C8: for a pending device that has already polled — its stored lastCall
is the (nonzero) wall-clock time t0 of the previous poll — a poll at curtime
returns poll_status slowdown when curtime - t0 < 1000 ms and waiting when
curtime - t0 >= 1000 ms, and in both cases stores curtime as the new
lastCall of the pending registration. -/
theorem c8_poll_backoff (cfg : Config) (st : AuthState)
    (product dsn deviceSecret rc : String) (regInfo : PendingDevice)
    (t0 curtime : Millis) (resp : LwaResponse)
    (hvalid : isValidDevice cfg product dsn = true)
    (hidx : jsGet st.pendingDeviceToRegCode (product ++ ":" ++ dsn) = some rc)
    (hreg : jsGet st.pendingRegCodeToDevice rc = some regInfo)
    (hexp : regInfo.expires > curtime)
    (hp : regInfo.product = product) (hd : regInfo.dsn = dsn)
    (hlast : regInfo.lastCall = some t0) (ht0 : t0 ≠ 0) :
    (curtime - t0 < MIN_POLL_RATE →
      (getAccessToken cfg st product dsn deviceSecret curtime resp).1 =
        PollResult.pollStatus "slowdown") ∧
    (MIN_POLL_RATE ≤ curtime - t0 →
      (getAccessToken cfg st product dsn deviceSecret curtime resp).1 =
        PollResult.pollStatus "waiting") ∧
    jsGet (getAccessToken cfg st product dsn deviceSecret curtime
        resp).2.pendingRegCodeToDevice rc =
      some { regInfo with lastCall := some curtime } := by
  have hrun := getAccessToken_pending_run cfg st product dsn deviceSecret rc
    regInfo curtime resp hvalid hidx hreg hexp hp hd
  rw [hrun]
  have h0 : ¬ regInfo.lastCall = some 0 := by
    rw [hlast]
    simp [ht0]
  refine ⟨?_, ?_, ?_⟩
  · intro hlt
    simp [hlast, ht0, hlt]
  · intro hge
    simp [hlast, ht0, not_lt.mpr hge]
  · exact jsGet_jsSet_self _ _ _

/-- Witness for C8: with the previous poll recorded at t0 = 499500, a poll
at 500000 (gap 500 ms) reports slowdown; recorded at t0 = 499000, a poll at
500000 (gap 1000 ms) reports waiting; both update lastCall to 500000. -/
theorem c8_witness :
    (getAccessToken sampleCfg (statePolled 499500) "speaker" "123" boundSecret
        500000 noResp).1 = PollResult.pollStatus "slowdown" ∧
    (getAccessToken sampleCfg (statePolled 499000) "speaker" "123" boundSecret
        500000 noResp).1 = PollResult.pollStatus "waiting" ∧
    jsGet (getAccessToken sampleCfg (statePolled 499500) "speaker" "123"
        boundSecret 500000 noResp).2.pendingRegCodeToDevice regC =
      some { devPolled 499500 with lastCall := some 500000 } :=
  ⟨(c8_poll_backoff sampleCfg (statePolled 499500) "speaker" "123" boundSecret
      regC (devPolled 499500) 499500 500000 noResp (by decide) (by decide)
      (by decide) (by decide) (by decide) (by decide) (by decide) (by decide)).1
      (by decide),
    (c8_poll_backoff sampleCfg (statePolled 499000) "speaker" "123" boundSecret
      regC (devPolled 499000) 499000 500000 noResp (by decide) (by decide)
      (by decide) (by decide) (by decide) (by decide) (by decide) (by decide)).2.1
      (by decide),
    (c8_poll_backoff sampleCfg (statePolled 499500) "speaker" "123" boundSecret
      regC (devPolled 499500) 499500 500000 noResp (by decide) (by decide)
      (by decide) (by decide) (by decide) (by decide) (by decide) (by decide)).2.2⟩

/-- C10: a pending registration that has never been polled carries no
lastCall value at all (the source never initializes the field), so on the
first poll the code computes curtime - undefined = NaN, NaN < 1000 is false,
and the poll reports waiting — whatever curtime is, however close to the
creation time — while recording curtime as the new lastCall. -/
theorem c10_first_poll_waiting (cfg : Config) (st : AuthState)
    (product dsn deviceSecret rc : String) (regInfo : PendingDevice)
    (curtime : Millis) (resp : LwaResponse)
    (hvalid : isValidDevice cfg product dsn = true)
    (hidx : jsGet st.pendingDeviceToRegCode (product ++ ":" ++ dsn) = some rc)
    (hreg : jsGet st.pendingRegCodeToDevice rc = some regInfo)
    (hexp : regInfo.expires > curtime)
    (hp : regInfo.product = product) (hd : regInfo.dsn = dsn)
    (hlast : regInfo.lastCall = none) :
    (getAccessToken cfg st product dsn deviceSecret curtime resp).1 =
      PollResult.pollStatus "waiting" ∧
    jsGet (getAccessToken cfg st product dsn deviceSecret curtime
        resp).2.pendingRegCodeToDevice rc =
      some { regInfo with lastCall := some curtime } := by
  have hrun := getAccessToken_pending_run cfg st product dsn deviceSecret rc
    regInfo curtime resp hvalid hidx hreg hexp hp hd
  rw [hrun]
  constructor
  · simp [hlast]
  · exact jsGet_jsSet_self _ _ _

/-- Witness for C10: the freshly created registration (created with expiry
1000000, so at most 1 ms can have elapsed when curtime = 1) reports waiting
on its very first poll. -/
theorem c10_witness :
    (getAccessToken sampleCfg pendingState1 "speaker" "123" boundSecret 1
        noResp).1 = PollResult.pollStatus "waiting" ∧
    jsGet (getAccessToken sampleCfg pendingState1 "speaker" "123" boundSecret 1
        noResp).2.pendingRegCodeToDevice regC =
      some { pendingDev1 with lastCall := some 1 } :=
  c10_first_poll_waiting sampleCfg pendingState1 "speaker" "123" boundSecret
    regC pendingDev1 1 noResp (by decide) (by decide) (by decide) (by decide)
    (by decide) (by decide) (by decide)

end AVSAuth
